import Mathlib

/-!
Verification of the Ask.N7 browser client's asynchronous state management:
the per-file status poller, the chat submit flow, the deferred-question
handoff, and the session roster controller. Each definition is a shallow
embedding of the corresponding JavaScript function; JS truthiness of the
values involved (strings, numbers, null/undefined) is modelled explicitly.
-/

namespace AskN7

/-- JS truthiness of a string-or-absent value: `undefined`/`null` and the
empty string are falsy. -/
def jsTruthy : Option String → Bool
  | some s => !s.isEmpty
  | none => false

/-- JS `a || b` on string-or-absent values. -/
def jsOrStr (a b : Option String) : Option String :=
  if jsTruthy a then a else b

/-- JS `a || d` where `a` is a string-or-absent value and `d` a string
default, as in `error.response?.data?.detail || "..."`. -/
def jsOrStrD (a : Option String) (d : String) : String :=
  match a with
  | some s => if s.isEmpty then d else s
  | none => d

/-- JS `a || b` on two strings, as in `question_p.trim() || question.trim()`. -/
def jsOrS (a b : String) : String :=
  if a.isEmpty then b else a

/-- JS `String.prototype.trim()`: strip leading and trailing whitespace. -/
def jsTrim (s : String) : String :=
  ⟨((s.data.dropWhile Char.isWhitespace).reverse.dropWhile Char.isWhitespace).reverse⟩

/-- JS `a || d` on a number-or-absent value: `undefined` and `0` are falsy,
as in `currentStatus.startTime || Date.now()`. -/
def jsOrNatD (a : Option Nat) (d : Nat) : Nat :=
  match a with
  | some t => if t = 0 then d else t
  | none => d

/-! ### Timer-handle registry (`pollIntervalsRef.current`)

The JS object mapping file id to interval id is modelled as an association
list from `Nat` to `Nat`; the JS object's unique-key semantics corresponds
to the `countKey _ _ ≤ 1` invariant proved below. -/

/-- The per-file timer-handle registry `pollIntervalsRef.current`. -/
def Timers := List (Nat × Nat)

instance : DecidableEq Timers := by
  unfold Timers
  infer_instance

/-- `pollIntervalsRef.current[fileId]`: the registered interval handle. -/
def lookupTimer (m : Timers) (fid : Nat) : Option Nat :=
  match m with
  | [] => none
  | (k, v) :: rest => if k = fid then some v else lookupTimer rest fid

/-- `delete pollIntervalsRef.current[fileId]`: drop every entry keyed by
`fileId` (a JS object holds at most one). -/
def eraseKey (fid : Nat) (m : Timers) : Timers :=
  match m with
  | [] => []
  | (k, v) :: rest => if k = fid then eraseKey fid rest else (k, v) :: eraseKey fid rest

/-- Number of registry entries for a given file id. -/
def countKey (fid : Nat) (m : Timers) : Nat :=
  match m with
  | [] => 0
  | (k, _) :: rest => (if k = fid then 1 else 0) + countKey fid rest

/-- `stopPolling(fileId)`: if a handle is registered for `fileId`, clear the
interval (the cleared handle is returned alongside the new registry) and
delete the entry; otherwise do nothing. -/
def stopPolling (m : Timers) (fid : Nat) : Timers × Option Nat :=
  match lookupTimer m fid with
  | some t => (eraseKey fid m, some t)
  | none => (m, none)

/-- `startPolling(fileId)`: first `stopPolling(fileId)`, then register a
fresh interval handle `tid` for `fileId`. -/
def startPolling (m : Timers) (fid tid : Nat) : Timers :=
  (fid, tid) :: (stopPolling m fid).1

theorem lookupTimer_eq_none_iff (m : Timers) (fid : Nat) :
    lookupTimer m fid = none ↔ countKey fid m = 0 := by
  induction m with
  | nil => simp [lookupTimer, countKey]
  | cons p rest ih =>
    obtain ⟨k, v⟩ := p
    by_cases hk : k = fid
    · simp [lookupTimer, countKey, hk]
    · simpa [lookupTimer, countKey, hk] using ih

theorem countKey_eraseKey_self (m : Timers) (fid : Nat) :
    countKey fid (eraseKey fid m) = 0 := by
  induction m with
  | nil => simp [eraseKey, countKey]
  | cons p rest ih =>
    obtain ⟨k, v⟩ := p
    by_cases hk : k = fid
    · simpa [eraseKey, hk] using ih
    · simpa [eraseKey, countKey, hk] using ih

theorem countKey_eraseKey_le (m : Timers) (fid g : Nat) :
    countKey g (eraseKey fid m) ≤ countKey g m := by
  induction m with
  | nil => simp [eraseKey, countKey]
  | cons p rest ih =>
    obtain ⟨k, v⟩ := p
    by_cases hk : k = fid
    · subst hk
      simp only [eraseKey, if_pos rfl, countKey]
      exact le_trans ih (Nat.le_add_left _ _)
    · simp only [eraseKey, if_neg hk, countKey]
      omega

theorem countKey_stopPolling (m : Timers) (fid : Nat) :
    countKey fid (stopPolling m fid).1 = 0 := by
  unfold stopPolling
  cases h : lookupTimer m fid with
  | none =>
    simpa using (lookupTimer_eq_none_iff m fid).mp h
  | some t =>
    simpa using countKey_eraseKey_self m fid

theorem countKey_stopPolling_le (m : Timers) (fid g : Nat) :
    countKey g (stopPolling m fid).1 ≤ countKey g m := by
  unfold stopPolling
  cases h : lookupTimer m fid with
  | none => simp
  | some t => simpa using countKey_eraseKey_le m fid g

/-- C1: for every file id at most one live polling timer exists at any time.
`startPolling` always cancels any existing timer for the file id (it routes
through `stopPolling`, whose second component is exactly the handle that gets
cleared) before registering exactly one fresh handle; `stopPolling` removes
the handle, is idempotent, and leaves the registry unchanged when no timer
exists; both operations preserve the at-most-one-handle-per-id bound. -/
theorem startPolling_stopPolling_single_timer (m : Timers) (fid tid g : Nat)
    (hinv : countKey g m ≤ 1) :
    countKey fid (startPolling m fid tid) = 1
    ∧ startPolling m fid tid = (fid, tid) :: (stopPolling m fid).1
    ∧ (stopPolling m fid).2 = lookupTimer m fid
    ∧ (stopPolling (stopPolling m fid).1 fid).1 = (stopPolling m fid).1
    ∧ (lookupTimer m fid = none → stopPolling m fid = (m, none))
    ∧ countKey g (startPolling m fid tid) ≤ 1
    ∧ countKey g (stopPolling m fid).1 ≤ 1 := by
  have hstop : countKey fid (stopPolling m fid).1 = 0 := countKey_stopPolling m fid
  have hlook : lookupTimer (stopPolling m fid).1 fid = none :=
    (lookupTimer_eq_none_iff _ fid).mpr hstop
  refine ⟨?_, rfl, ?_, ?_, ?_, ?_, le_trans (countKey_stopPolling_le m fid g) hinv⟩
  · simp [startPolling, countKey, hstop]
  · unfold stopPolling
    cases h : lookupTimer m fid <;> simp
  · generalize hX : (stopPolling m fid).1 = X at hlook ⊢
    simp [stopPolling, hlook]
  · intro h
    simp [stopPolling, h]
  · by_cases hg : fid = g
    · subst hg
      simp [startPolling, countKey, hstop]
    · simp only [startPolling, countKey, if_neg hg, Nat.zero_add]
      exact le_trans (countKey_stopPolling_le m fid g) hinv

/-- C1 witness: concrete run on the registry `[(1, 5), (2, 7)]`. -/
theorem startPolling_stopPolling_single_timer_witness :
    countKey 1 (startPolling [(1, 5), (2, 7)] 1 9) = 1
    ∧ startPolling [(1, 5), (2, 7)] 1 9 = (1, 9) :: (stopPolling [(1, 5), (2, 7)] 1).1
    ∧ (stopPolling [(1, 5), (2, 7)] 1).2 = lookupTimer [(1, 5), (2, 7)] 1
    ∧ (stopPolling (stopPolling [(1, 5), (2, 7)] 1).1 1).1 = (stopPolling [(1, 5), (2, 7)] 1).1
    ∧ (lookupTimer [(1, 5), (2, 7)] 1 = none → stopPolling [(1, 5), (2, 7)] 1 = ([(1, 5), (2, 7)], none))
    ∧ countKey 2 (startPolling [(1, 5), (2, 7)] 1 9) ≤ 1
    ∧ countKey 2 (stopPolling [(1, 5), (2, 7)] 1).1 ≤ 1 :=
  startPolling_stopPolling_single_timer [(1, 5), (2, 7)] 1 9 2 (by decide)

/-! ### Status polling (`pollStatus`)

`pollStatus(fileId)` fetches `/api/document/process/status/{fileId}` and
folds the response into the `fileStatuses` map, stopping the timer and
emitting toasts as dictated by timeout and terminal statuses. The network
round trip is a parameter: `none` models a rejected fetch (the `catch`
branch), `some sd` a resolved response body. -/

/-- Poll interval in milliseconds (`POLL_INTERVAL`). -/
def POLL_INTERVAL : Nat := 3000

/-- Poll timeout ceiling in milliseconds (`POLL_TIMEOUT`). -/
def POLL_TIMEOUT : Nat := 120000

/-- Body of `/api/document/process/status/{fileId}`. -/
structure StatusData where
  status : String
  message : Option String
  error : Option String
deriving Repr, DecidableEq

/-- One tracked record of `fileStatuses`: spread of the last response plus
the locally stamped `startTime` (absent on records written without one). -/
structure FileStatus where
  status : String
  message : Option String
  error : Option String
  startTime : Option Nat
deriving Repr, DecidableEq

/-- The `fileStatuses` React state: file id to tracked record. -/
def Statuses := List (Nat × FileStatus)

instance : DecidableEq Statuses := by
  unfold Statuses
  infer_instance

/-- `fileStatuses[fileId]` (`undefined` when never tracked). -/
def lookupStatus (m : Statuses) (fid : Nat) : Option FileStatus :=
  match m with
  | [] => none
  | (k, v) :: rest => if k = fid then some v else lookupStatus rest fid

/-- `{...prev, [fileId]: v}`: replace (or add) the record for `fileId`. -/
def setStatus (m : Statuses) (fid : Nat) (v : FileStatus) : Statuses :=
  match m with
  | [] => [(fid, v)]
  | (k, w) :: rest => if k = fid then (fid, v) :: rest else (k, w) :: setStatus rest fid v

/-- One toast notification, as `toast.kind(text, title)`. -/
structure Toast where
  kind : String
  text : String
  title : String
deriving Repr, DecidableEq

/-- `'Processing timed out. Please try again.'` -/
def timeoutText : String := "Processing timed out. Please try again."

/-- `const startTime = currentStatus.startTime || Date.now()` where
`currentStatus = prev[fileId] || {}`. -/
def tickStartTime (m : Statuses) (fid now : Nat) : Nat :=
  jsOrNatD ((lookupStatus m fid).bind FileStatus.startTime) now

/-- `const wasProcessing = currentStatus.status === 'processing'`. -/
def wasProcessing (m : Statuses) (fid : Nat) : Bool :=
  match lookupStatus m fid with
  | some fs => fs.status == "processing"
  | none => false

/-- Everything one `pollStatus` tick produces: the next `fileStatuses`, the
next timer registry, the toasts raised, whether `fetchFiles()` was called,
and the function's return value. -/
structure PollResult where
  statuses : Statuses
  timers : Timers
  toasts : List Toast
  refetch : Bool
  ret : Option StatusData
deriving DecidableEq

/-- `pollStatus(fileId)` at wall-clock `now`, with response `resp`
(`none` = transport failure, handled by the `catch` that returns `null`). -/
def pollStatus (statuses : Statuses) (timers : Timers) (fid now : Nat)
    (resp : Option StatusData) : PollResult :=
  match resp with
  | none => ⟨statuses, timers, [], false, none⟩
  | some sd =>
    let startTime := tickStartTime statuses fid now
    let wasProc := wasProcessing statuses fid
    if POLL_TIMEOUT < now - startTime then
      { statuses := setStatus statuses fid ⟨"failed", sd.message, some timeoutText, some startTime⟩
        timers := (stopPolling timers fid).1
        toasts := [⟨"error", timeoutText, "Timeout"⟩]
        refetch := false
        ret := some sd }
    else
      { statuses := setStatus statuses fid ⟨sd.status, sd.message, sd.error, some startTime⟩
        timers :=
          if sd.status == "completed" || sd.status == "failed" then (stopPolling timers fid).1
          else timers
        toasts :=
          if sd.status == "completed" then
            if wasProc then [⟨"success", "Document processed successfully! Ready to chat.", "Complete"⟩]
            else []
          else if sd.status == "failed" && wasProc then
            [⟨"error", jsOrStrD sd.error "Processing failed. Please try again.", "Failed"⟩]
          else []
        refetch := sd.status == "completed"
        ret := some sd }

theorem lookupStatus_setStatus_self (m : Statuses) (fid : Nat) (v : FileStatus) :
    lookupStatus (setStatus m fid v) fid = some v := by
  induction m with
  | nil => simp [setStatus, lookupStatus]
  | cons p rest ih =>
    obtain ⟨k, w⟩ := p
    by_cases hk : k = fid
    · simp [setStatus, lookupStatus, hk]
    · simp [setStatus, lookupStatus, hk, ih]

theorem lookupTimer_stopPolling_self (m : Timers) (fid : Nat) :
    lookupTimer (stopPolling m fid).1 fid = none :=
  (lookupTimer_eq_none_iff _ fid).mpr (countKey_stopPolling m fid)

/-- C2: on a poll tick whose response arrived, whenever `now − startTime`
exceeds the 120000 ms ceiling the tracked record becomes `failed` with the
timeout message, the file's timer is cancelled, and exactly the timeout
error toast is raised — whatever status `sd` the server reported. -/
theorem pollStatus_timeout (statuses : Statuses) (timers : Timers)
    (fid now : Nat) (sd : StatusData)
    (h : POLL_TIMEOUT < now - tickStartTime statuses fid now) :
    lookupStatus (pollStatus statuses timers fid now (some sd)).statuses fid =
      some ⟨"failed", sd.message, some timeoutText, some (tickStartTime statuses fid now)⟩
    ∧ lookupTimer (pollStatus statuses timers fid now (some sd)).timers fid = none
    ∧ (pollStatus statuses timers fid now (some sd)).toasts = [⟨"error", timeoutText, "Timeout"⟩]
    ∧ (pollStatus statuses timers fid now (some sd)).refetch = false := by
  simp only [pollStatus, if_pos h]
  simp [lookupStatus_setStatus_self, lookupTimer_stopPolling_self]

/-- C2 witness: a tick 199999 ms after tracking began, with the server still
reporting `processing`, is forced to `failed`. -/
theorem pollStatus_timeout_witness :
    lookupStatus (pollStatus [(1, ⟨"processing", none, none, some 100⟩)] [(1, 5)] 1 200099
        (some ⟨"processing", none, none⟩)).statuses 1 =
      some ⟨"failed", none, some timeoutText,
        some (tickStartTime [(1, ⟨"processing", none, none, some 100⟩)] 1 200099)⟩
    ∧ lookupTimer (pollStatus [(1, ⟨"processing", none, none, some 100⟩)] [(1, 5)] 1 200099
        (some ⟨"processing", none, none⟩)).timers 1 = none
    ∧ (pollStatus [(1, ⟨"processing", none, none, some 100⟩)] [(1, 5)] 1 200099
        (some ⟨"processing", none, none⟩)).toasts = [⟨"error", timeoutText, "Timeout"⟩]
    ∧ (pollStatus [(1, ⟨"processing", none, none, some 100⟩)] [(1, 5)] 1 200099
        (some ⟨"processing", none, none⟩)).refetch = false :=
  pollStatus_timeout [(1, ⟨"processing", none, none, some 100⟩)] [(1, 5)] 1 200099
    ⟨"processing", none, none⟩ (by decide)

/-- C3: on a non-timeout tick whose response reports a terminal status, a
toast is raised iff the previously tracked status was `processing`; in
particular a first observation that is already terminal raises none. On
`completed` the file list is refetched and the file's timer is cancelled. -/
theorem pollStatus_terminal_toast (statuses : Statuses) (timers : Timers)
    (fid now : Nat) (sd : StatusData)
    (hnt : ¬ POLL_TIMEOUT < now - tickStartTime statuses fid now)
    (hterm : sd.status = "completed" ∨ sd.status = "failed") :
    ((pollStatus statuses timers fid now (some sd)).toasts ≠ [] ↔
      wasProcessing statuses fid = true)
    ∧ (lookupStatus statuses fid = none →
        (pollStatus statuses timers fid now (some sd)).toasts = [])
    ∧ (sd.status = "completed" →
        (pollStatus statuses timers fid now (some sd)).refetch = true
        ∧ lookupTimer (pollStatus statuses timers fid now (some sd)).timers fid = none) := by
  have hw : lookupStatus statuses fid = none → wasProcessing statuses fid = false := by
    intro h
    simp [wasProcessing, h]
  rcases hterm with hc | hf
  · simp only [pollStatus, if_neg hnt, hc]
    refine ⟨?_, ?_, ?_⟩
    · cases hwp : wasProcessing statuses fid <;> simp [hwp]
    · intro h
      simp [hw h]
    · intro _
      exact ⟨by simp, by simp [lookupTimer_stopPolling_self]⟩
  · simp only [pollStatus, if_neg hnt, hf]
    refine ⟨?_, ?_, ?_⟩
    · cases hwp : wasProcessing statuses fid <;> simp [hwp]
    · intro h
      simp [hw h]
    · intro hc
      simp [hf] at hc

/-- C3 witness: a file first observed `processing`, later reported
`completed` before the timeout, raises exactly one toast and triggers a
refetch. -/
theorem pollStatus_terminal_toast_witness :
    ((pollStatus [(1, ⟨"processing", none, none, some 100⟩)] [(1, 5)] 1 1000
        (some ⟨"completed", none, none⟩)).toasts ≠ [] ↔
      wasProcessing [(1, ⟨"processing", none, none, some 100⟩)] 1 = true)
    ∧ (lookupStatus [(1, ⟨"processing", none, none, some 100⟩)] 1 = none →
        (pollStatus [(1, ⟨"processing", none, none, some 100⟩)] [(1, 5)] 1 1000
          (some ⟨"completed", none, none⟩)).toasts = [])
    ∧ (StatusData.status ⟨"completed", none, none⟩ = "completed" →
        (pollStatus [(1, ⟨"processing", none, none, some 100⟩)] [(1, 5)] 1 1000
          (some ⟨"completed", none, none⟩)).refetch = true
        ∧ lookupTimer (pollStatus [(1, ⟨"processing", none, none, some 100⟩)] [(1, 5)] 1 1000
            (some ⟨"completed", none, none⟩)).timers 1 = none) :=
  pollStatus_terminal_toast [(1, ⟨"processing", none, none, some 100⟩)] [(1, 5)] 1 1000
    ⟨"completed", none, none⟩ (by decide) (Or.inl rfl)

/-- C7: a transport failure during a poll tick is swallowed whole — statuses,
timers, toasts and refetch flag are all untouched and the call returns
`null`; moreover a non-terminal, non-timed-out response also leaves the
timer registry running, so only terminal statuses or the timeout stop it. -/
theorem pollStatus_transport_error_swallowed (statuses : Statuses) (timers : Timers)
    (fid now : Nat) (sd : StatusData)
    (hnt : ¬ POLL_TIMEOUT < now - tickStartTime statuses fid now)
    (hc : sd.status ≠ "completed") (hf : sd.status ≠ "failed") :
    pollStatus statuses timers fid now none = ⟨statuses, timers, [], false, none⟩
    ∧ (pollStatus statuses timers fid now (some sd)).timers = timers := by
  refine ⟨rfl, ?_⟩
  simp [pollStatus, if_neg hnt, hc, hf]

/-- C7 witness: a failed fetch and a `pending` response at tick time both
leave the timer for file 1 running. -/
theorem pollStatus_transport_error_swallowed_witness :
    pollStatus [(1, ⟨"processing", none, none, some 100⟩)] [(1, 5)] 1 1000 none =
      ⟨[(1, ⟨"processing", none, none, some 100⟩)], [(1, 5)], [], false, none⟩
    ∧ (pollStatus [(1, ⟨"processing", none, none, some 100⟩)] [(1, 5)] 1 1000
        (some ⟨"pending", none, none⟩)).timers = [(1, 5)] :=
  pollStatus_transport_error_swallowed [(1, ⟨"processing", none, none, some 100⟩)] [(1, 5)]
    1 1000 ⟨"pending", none, none⟩ (by decide) (by decide) (by decide)

/-! ### Chat submit (`handleSubmit`)

`handleSubmit(question_p)` validates, resolves a target session (creating
one on demand through `onCreateSession`), optimistically appends the user
message, posts it, and appends either the assistant reply or a synthetic
error message. External effects are parameters: `createResult` is the
outcome of the optional `onCreateSession` callback (`none` = no callback
supplied), `send` the outcome of the message POST, `nowIso`/`errIso` the
two `toISOString()` stamps taken before the request and in the catch. -/

/-- One transcript entry, in the client's local message shape. -/
structure Msg where
  message : String
  is_user_message : Bool
  create_at : String
  documents_used : Option (List String)
deriving Repr, DecidableEq

/-- `response.data.ai_response`. -/
structure AiResponse where
  content : String
  created_at : String
  documents_used : Option (List String)
deriving Repr, DecidableEq

/-- Outcome of the message POST: resolved body, or rejection whose
`error.response?.data?.detail` is `detail`. -/
inductive SendOutcome where
  | ok (ai : AiResponse)
  | err (detail : Option String)
deriving Repr, DecidableEq

/-- The component state `handleSubmit` reads and writes. -/
structure ChatState where
  question : String
  isLoading : Bool
  showingLetters : Bool
  messages : List Msg
deriving Repr, DecidableEq

/-- State after a `handleSubmit` run, plus its observable effects: alerts
raised, whether `onCreateSession` was invoked, which session the POST went
to (`none` = no network send), and whether `onSessionUpdate` fired. -/
structure SubmitResult where
  question : String
  isLoading : Bool
  showingLetters : Bool
  messages : List Msg
  alerts : List String
  createCalled : Bool
  sentTo : Option Nat
  notifiedParent : Bool
deriving Repr, DecidableEq

/-- `'An error occurred. Please try again.'` -/
def sendFallbackText : String := "An error occurred. Please try again."

/-- A `handleSubmit` return that leaves all component state untouched. -/
def submitAbort (st : ChatState) (alerts : List String) (createCalled : Bool) : SubmitResult :=
  { question := st.question, isLoading := st.isLoading,
    showingLetters := st.showingLetters, messages := st.messages,
    alerts := alerts, createCalled := createCalled, sentTo := none,
    notifiedParent := false }

/-- `handleSubmit(question_p)` with processed-file count `processedCount`,
current `sessionId` prop, `onCreateSession` outcome `createResult`, and
send outcome `send`. -/
def handleSubmit (st : ChatState) (question_p : String) (processedCount : Nat)
    (sessionId : Option Nat) (createResult : Option (Option Nat))
    (hasUpdateCb : Bool) (send : SendOutcome) (nowIso errIso : String) : SubmitResult :=
  if processedCount = 0 then
    submitAbort st ["Please add at least one document to the knowledge base first."] false
  else
    let finalQuestion := jsOrS (jsTrim question_p) (jsTrim st.question)
    if finalQuestion.isEmpty then
      submitAbort st ["Please enter a question."] false
    else
      let target : Option Nat :=
        match sessionId with
        | some sid => some sid
        | none =>
          match createResult with
          | some r => r
          | none => none
      let createCalled : Bool := sessionId.isNone && createResult.isSome
      match target with
      | none =>
        if createCalled then submitAbort st ["Failed to create chat session."] true
        else submitAbort st [] false
      | some tsid =>
        let msgs1 := st.messages ++ [⟨finalQuestion, true, nowIso, none⟩]
        match send with
        | .ok ai =>
          { question := "", isLoading := false, showingLetters := true,
            messages := msgs1 ++ [⟨ai.content, false, ai.created_at, ai.documents_used⟩],
            alerts := [], createCalled := createCalled, sentTo := some tsid,
            notifiedParent := hasUpdateCb }
        | .err detail =>
          { question := "", isLoading := false, showingLetters := false,
            messages := msgs1 ++ [⟨jsOrStrD detail sendFallbackText, false, errIso, none⟩],
            alerts := [], createCalled := createCalled, sentTo := some tsid,
            notifiedParent := false }

/-- C4: when the send request fails, the transcript gains the optimistic
user message followed by a synthetic assistant message whose content is the
server's `detail` (a rejection with `detail = "Model unavailable"` yields
exactly `"Model unavailable"`) or the generic fallback when absent; the
user's message is never rolled back. -/
theorem handleSubmit_send_failure (st : ChatState) (question_p : String)
    (processedCount : Nat) (sid : Nat) (createResult : Option (Option Nat))
    (hasUpdateCb : Bool) (detail : Option String) (nowIso errIso : String)
    (h0 : processedCount ≠ 0)
    (hq : (jsOrS (jsTrim question_p) (jsTrim st.question)).isEmpty = false) :
    (handleSubmit st question_p processedCount (some sid) createResult hasUpdateCb
        (.err detail) nowIso errIso).messages =
      st.messages ++ [⟨jsOrS (jsTrim question_p) (jsTrim st.question), true, nowIso, none⟩,
        ⟨jsOrStrD detail sendFallbackText, false, errIso, none⟩]
    ∧ jsOrStrD (some "Model unavailable") sendFallbackText = "Model unavailable"
    ∧ jsOrStrD none sendFallbackText = sendFallbackText := by
  refine ⟨?_, rfl, rfl⟩
  simp [handleSubmit, h0, hq]

/-- C4 witness: a send of `"Hi"` to session 3 rejected with
`{detail: "Model unavailable"}` leaves the question and appends that exact
text as the assistant message. -/
theorem handleSubmit_send_failure_witness :
    (handleSubmit ⟨"", false, false, []⟩ "Hi" 1 (some 3) none false
        (.err (some "Model unavailable")) "t1" "t2").messages =
      [] ++ [⟨jsOrS (jsTrim "Hi") (jsTrim ""), true, "t1", none⟩,
        ⟨jsOrStrD (some "Model unavailable") sendFallbackText, false, "t2", none⟩]
    ∧ jsOrStrD (some "Model unavailable") sendFallbackText = "Model unavailable"
    ∧ jsOrStrD none sendFallbackText = sendFallbackText :=
  handleSubmit_send_failure ⟨"", false, false, []⟩ "Hi" 1 3 none false
    (some "Model unavailable") "t1" "t2" (by decide) (by decide)

/-- C5: with zero processed documents or an all-whitespace question,
`handleSubmit` raises an alert and stops: no session creation, no network
send, and the message list, question and loading flag are untouched. -/
theorem handleSubmit_precondition_abort (st : ChatState) (question_p : String)
    (processedCount : Nat) (sessionId : Option Nat) (createResult : Option (Option Nat))
    (hasUpdateCb : Bool) (send : SendOutcome) (nowIso errIso : String)
    (h : processedCount = 0 ∨ (jsOrS (jsTrim question_p) (jsTrim st.question)).isEmpty = true) :
    (handleSubmit st question_p processedCount sessionId createResult hasUpdateCb
        send nowIso errIso).messages = st.messages
    ∧ (handleSubmit st question_p processedCount sessionId createResult hasUpdateCb
        send nowIso errIso).question = st.question
    ∧ (handleSubmit st question_p processedCount sessionId createResult hasUpdateCb
        send nowIso errIso).isLoading = st.isLoading
    ∧ (handleSubmit st question_p processedCount sessionId createResult hasUpdateCb
        send nowIso errIso).alerts ≠ []
    ∧ (handleSubmit st question_p processedCount sessionId createResult hasUpdateCb
        send nowIso errIso).sentTo = none
    ∧ (handleSubmit st question_p processedCount sessionId createResult hasUpdateCb
        send nowIso errIso).createCalled = false := by
  rcases h with h0 | hq
  · simp [handleSubmit, h0, submitAbort]
  · by_cases h0 : processedCount = 0 <;>
      simp [handleSubmit, h0, hq, submitAbort]

/-- C5 witness: zero processed documents abort the submit with an alert and
no network call. -/
theorem handleSubmit_precondition_abort_witness :
    (handleSubmit ⟨"q", false, false, []⟩ "" 0 (some 3) none false
        (.ok ⟨"a", "t", none⟩) "t1" "t2").messages = []
    ∧ (handleSubmit ⟨"q", false, false, []⟩ "" 0 (some 3) none false
        (.ok ⟨"a", "t", none⟩) "t1" "t2").question = "q"
    ∧ (handleSubmit ⟨"q", false, false, []⟩ "" 0 (some 3) none false
        (.ok ⟨"a", "t", none⟩) "t1" "t2").isLoading = false
    ∧ (handleSubmit ⟨"q", false, false, []⟩ "" 0 (some 3) none false
        (.ok ⟨"a", "t", none⟩) "t1" "t2").alerts ≠ []
    ∧ (handleSubmit ⟨"q", false, false, []⟩ "" 0 (some 3) none false
        (.ok ⟨"a", "t", none⟩) "t1" "t2").sentTo = none
    ∧ (handleSubmit ⟨"q", false, false, []⟩ "" 0 (some 3) none false
        (.ok ⟨"a", "t", none⟩) "t1" "t2").createCalled = false :=
  handleSubmit_precondition_abort ⟨"q", false, false, []⟩ "" 0 (some 3) none false
    (.ok ⟨"a", "t", none⟩) "t1" "t2" (Or.inl rfl)

/-- C10: when no session exists and the on-demand creation returns no id,
`handleSubmit` aborts before the optimistic append and before clearing the
input: messages, question and loading flag keep their previous values, the
creation-failure alert is raised, and no send happens. -/
theorem handleSubmit_create_failure_abort (st : ChatState) (question_p : String)
    (processedCount : Nat) (hasUpdateCb : Bool) (send : SendOutcome)
    (nowIso errIso : String)
    (h0 : processedCount ≠ 0)
    (hq : (jsOrS (jsTrim question_p) (jsTrim st.question)).isEmpty = false) :
    (handleSubmit st question_p processedCount none (some none) hasUpdateCb
        send nowIso errIso).messages = st.messages
    ∧ (handleSubmit st question_p processedCount none (some none) hasUpdateCb
        send nowIso errIso).question = st.question
    ∧ (handleSubmit st question_p processedCount none (some none) hasUpdateCb
        send nowIso errIso).isLoading = st.isLoading
    ∧ (handleSubmit st question_p processedCount none (some none) hasUpdateCb
        send nowIso errIso).alerts = ["Failed to create chat session."]
    ∧ (handleSubmit st question_p processedCount none (some none) hasUpdateCb
        send nowIso errIso).sentTo = none
    ∧ (handleSubmit st question_p processedCount none (some none) hasUpdateCb
        send nowIso errIso).createCalled = true := by
  simp [handleSubmit, h0, hq, submitAbort]

/-- C10 witness: a concrete submit whose session creation returns `null`
leaves the chat state exactly as it was. -/
theorem handleSubmit_create_failure_abort_witness :
    (handleSubmit ⟨"keep me", true, false, [⟨"old", true, "t0", none⟩]⟩ "Hi" 2 none
        (some none) false (.ok ⟨"a", "t", none⟩) "t1" "t2").messages =
      [⟨"old", true, "t0", none⟩]
    ∧ (handleSubmit ⟨"keep me", true, false, [⟨"old", true, "t0", none⟩]⟩ "Hi" 2 none
        (some none) false (.ok ⟨"a", "t", none⟩) "t1" "t2").question = "keep me"
    ∧ (handleSubmit ⟨"keep me", true, false, [⟨"old", true, "t0", none⟩]⟩ "Hi" 2 none
        (some none) false (.ok ⟨"a", "t", none⟩) "t1" "t2").isLoading = true
    ∧ (handleSubmit ⟨"keep me", true, false, [⟨"old", true, "t0", none⟩]⟩ "Hi" 2 none
        (some none) false (.ok ⟨"a", "t", none⟩) "t1" "t2").alerts =
      ["Failed to create chat session."]
    ∧ (handleSubmit ⟨"keep me", true, false, [⟨"old", true, "t0", none⟩]⟩ "Hi" 2 none
        (some none) false (.ok ⟨"a", "t", none⟩) "t1" "t2").sentTo = none
    ∧ (handleSubmit ⟨"keep me", true, false, [⟨"old", true, "t0", none⟩]⟩ "Hi" 2 none
        (some none) false (.ok ⟨"a", "t", none⟩) "t1" "t2").createCalled = true :=
  handleSubmit_create_failure_abort ⟨"keep me", true, false, [⟨"old", true, "t0", none⟩]⟩
    "Hi" 2 false (.ok ⟨"a", "t", none⟩) "t1" "t2" (by decide) (by decide)

/-! ### Deferred-question handoff (the pending-question effect)

The effect reads `location.state?.question` and
`localStorage.getItem('pendingQuestion')`, and — guarded by the
`hasHandledPendingRef` flag — consumes the question: it sets the flag,
clears the consumed storage/navigation state, and schedules one
`handleSubmit(questionToAsk)` call behind a 100 ms `setTimeout`. -/

/-- The state the pending-question effect can read or write: the
`hasHandledPendingRef` flag, the navigation-state question, the
local-storage value, and the submissions scheduled so far
(delay in ms, question text). -/
structure PendingState where
  hasHandled : Bool
  stateQuestion : Option String
  localPending : Option String
  scheduled : List (Nat × String)
deriving Repr, DecidableEq

/-- One run of the pending-question effect, at a moment when the file
fetch's `isLoading` flag reads `filesIsLoading`. -/
def pendingEffect (filesIsLoading : Bool) (s : PendingState) : PendingState :=
  if filesIsLoading then s
  else if s.hasHandled then s
  else
    let questionToAsk := jsOrStr s.stateQuestion s.localPending
    if jsTruthy questionToAsk then
      { hasHandled := true
        stateQuestion := if jsTruthy s.stateQuestion then none else s.stateQuestion
        localPending := if jsTruthy s.localPending then none else s.localPending
        scheduled := s.scheduled ++ [(100, questionToAsk.getD "")] }
    else s

/-- Any sequence of effect firings, in order. -/
def runPendingEffects (bs : List Bool) (s : PendingState) : PendingState :=
  bs.foldl (fun t b => pendingEffect b t) s

theorem pendingEffect_handled (b : Bool) (s : PendingState)
    (h : s.hasHandled = true) : pendingEffect b s = s := by
  cases b <;> simp [pendingEffect, h]

theorem pendingEffect_cases (b : Bool) (s : PendingState) :
    pendingEffect b s = s
    ∨ ((pendingEffect b s).hasHandled = true
        ∧ (pendingEffect b s).scheduled.length = s.scheduled.length + 1
        ∧ s.hasHandled = false) := by
  cases b with
  | true => exact Or.inl rfl
  | false =>
    by_cases hh : s.hasHandled = true
    · exact Or.inl (pendingEffect_handled false s hh)
    · by_cases hq : jsTruthy (jsOrStr s.stateQuestion s.localPending) = true
      · refine Or.inr ⟨?_, ?_, by simpa using hh⟩ <;>
          simp [pendingEffect, hq, hh]
      · refine Or.inl ?_
        simp [pendingEffect, hh, hq]

theorem runPendingEffects_handled (bs : List Bool) (s : PendingState)
    (h : s.hasHandled = true) : runPendingEffects bs s = s := by
  induction bs with
  | nil => rfl
  | cons b rest ih =>
    simp only [runPendingEffects, List.foldl_cons, pendingEffect_handled b s h]
    exact ih

theorem runPendingEffects_scheduled_le (bs : List Bool) (s : PendingState) :
    (runPendingEffects bs s).scheduled.length ≤
      s.scheduled.length + (if s.hasHandled then 0 else 1) := by
  induction bs generalizing s with
  | nil => cases h : s.hasHandled <;> simp [runPendingEffects]
  | cons b rest ih =>
    rcases pendingEffect_cases b s with heq | ⟨hh, hl, hs⟩
    · simpa only [runPendingEffects, List.foldl_cons, heq] using ih s
    · have hrun : runPendingEffects rest (pendingEffect b s) = pendingEffect b s :=
        runPendingEffects_handled rest _ hh
      simp only [runPendingEffects, List.foldl_cons] at *
      rw [hrun, hl, hs]
      simp

/-- C6: the deferred question is consumed at most once per controller
instance. The effect is inert while the file list is still loading and once
the `hasHandledPendingRef` guard is set; whenever it does schedule a
submission it sets the guard in the same step (before the 100 ms-delayed
submission can run); and across any sequence of firings the number of
scheduled submissions grows by at most one — by zero if the guard was
already set. -/
theorem pendingQuestion_consumed_at_most_once (b : Bool) (bs : List Bool)
    (s : PendingState) :
    pendingEffect true s = s
    ∧ (s.hasHandled = true → pendingEffect b s = s)
    ∧ ((pendingEffect false s).scheduled.length > s.scheduled.length →
        (pendingEffect false s).hasHandled = true
        ∧ (pendingEffect false s).scheduled.length = s.scheduled.length + 1)
    ∧ (runPendingEffects bs s).scheduled.length ≤
        s.scheduled.length + (if s.hasHandled then 0 else 1) := by
  refine ⟨rfl, fun h => pendingEffect_handled b s h, ?_,
    runPendingEffects_scheduled_le bs s⟩
  intro hgt
  rcases pendingEffect_cases false s with heq | ⟨hh, hl, _⟩
  · rw [heq] at hgt
    omega
  · exact ⟨hh, hl⟩

/-- C6 witness: a fresh controller with a stored pending question, fired
four times, ends with at most one scheduled submission. -/
theorem pendingQuestion_consumed_at_most_once_witness :
    pendingEffect true ⟨false, none, some "Q", []⟩ = ⟨false, none, some "Q", []⟩
    ∧ (PendingState.hasHandled ⟨false, none, some "Q", []⟩ = true →
        pendingEffect false ⟨false, none, some "Q", []⟩ = ⟨false, none, some "Q", []⟩)
    ∧ ((pendingEffect false ⟨false, none, some "Q", []⟩).scheduled.length >
          (PendingState.scheduled ⟨false, none, some "Q", []⟩).length →
        (pendingEffect false ⟨false, none, some "Q", []⟩).hasHandled = true
        ∧ (pendingEffect false ⟨false, none, some "Q", []⟩).scheduled.length =
            (PendingState.scheduled ⟨false, none, some "Q", []⟩).length + 1)
    ∧ (runPendingEffects [false, false, true, false] ⟨false, none, some "Q", []⟩).scheduled.length ≤
        (PendingState.scheduled ⟨false, none, some "Q", []⟩).length +
          (if PendingState.hasHandled ⟨false, none, some "Q", []⟩ then 0 else 1) :=
  pendingQuestion_consumed_at_most_once false [false, false, true, false]
    ⟨false, none, some "Q", []⟩

/-! ### Session roster (`GeneralChatPage`)

`fetchSessions` loads the roster and possibly auto-selects the most recent
session; `deleteSession` removes one and re-targets the active selection.
The network outcomes, the `window.confirm` answer, and the pending-question
sources are parameters. -/

/-- One roster entry of `GET /api/general-chat/sessions`. -/
structure Session where
  id : Nat
  title : String
  updated_at : String
deriving Repr, DecidableEq

/-- `fetchSessions()`: on a resolved fetch replace the roster with
`data` and, when no session is active, the roster is non-empty and no
pending question exists (in navigation state or local storage), select the
first (most recent) entry; a rejected fetch changes nothing. Returns the
new `(sessions, activeSessionId)` pair. -/
def fetchSessions (sessions : List Session) (active : Option Nat)
    (stateQ localQ : Option String) (resp : Option (List Session)) :
    List Session × Option Nat :=
  match resp with
  | none => (sessions, active)
  | some data =>
    let pendingQ := jsOrStr stateQ localQ
    if active.isNone && !data.isEmpty && !(jsTruthy pendingQ) then
      (data, (data.head?).map Session.id)
    else
      (data, active)

/-- The `GeneralChatPage` state `deleteSession` touches. -/
structure PageState where
  sessions : List Session
  activeSessionId : Option Nat
  chatKey : Nat
deriving Repr, DecidableEq

/-- `deleteSession(sessionId)`: after the user confirms and the DELETE
resolves, drop the session from the roster; if it was the active one,
re-select the first remaining entry (bumping the chat remount key) or clear
the selection when none remain. A declined confirm or a rejected DELETE
changes nothing. -/
def deleteSession (st : PageState) (sid : Nat) (confirmOk requestOk : Bool) : PageState :=
  if !confirmOk then st
  else if !requestOk then st
  else
    let sessions' := st.sessions.filter (fun s => s.id != sid)
    if st.activeSessionId = some sid then
      match sessions'.head? with
      | some s0 => ⟨sessions', some s0.id, st.chatKey + 1⟩
      | none => ⟨sessions', none, st.chatKey⟩
    else
      ⟨sessions', st.activeSessionId, st.chatKey⟩

theorem jsTruthy_jsOrStr (a b : Option String) :
    jsTruthy (jsOrStr a b) = (jsTruthy a || jsTruthy b) := by
  cases h : jsTruthy a <;> simp [jsOrStr, h]

/-- C8: once the roster fetch resolves with `data`, the roster becomes
`data`, and the first (most recent) session becomes active exactly when no
session was active, `data` is non-empty, and no deferred question is
pending in navigation state or local storage; in every other case the
active selection is exactly what it was. -/
theorem fetchSessions_roster_selection (sessions data : List Session)
    (active : Option Nat) (stateQ localQ : Option String) :
    (fetchSessions sessions active stateQ localQ (some data)).1 = data
    ∧ ((active.isNone && !data.isEmpty && !(jsTruthy stateQ || jsTruthy localQ)) = true →
        (fetchSessions sessions active stateQ localQ (some data)).2 =
          (data.head?).map Session.id)
    ∧ ((active.isNone && !data.isEmpty && !(jsTruthy stateQ || jsTruthy localQ)) = false →
        (fetchSessions sessions active stateQ localQ (some data)).2 = active) := by
  by_cases hc : (active.isNone && !data.isEmpty && !(jsTruthy stateQ || jsTruthy localQ)) = true
  · rw [← jsTruthy_jsOrStr] at hc
    refine ⟨?_, fun _ => ?_, fun hfalse => ?_⟩
    · simp [fetchSessions, hc]
    · simp [fetchSessions, hc]
    · rw [← jsTruthy_jsOrStr] at hfalse
      rw [hfalse] at hc
      cases hc
  · have hc' : (active.isNone && !data.isEmpty && !(jsTruthy stateQ || jsTruthy localQ)) = false :=
      by simpa using hc
    rw [← jsTruthy_jsOrStr] at hc'
    refine ⟨?_, fun htrue => ?_, fun _ => ?_⟩
    · simp [fetchSessions, hc']
    · rw [← jsTruthy_jsOrStr] at htrue
      rw [htrue] at hc'
      cases hc'
    · simp [fetchSessions, hc']

/-- C8 witness: with nothing active, no pending question and two fetched
sessions, the first fetched session becomes active. -/
theorem fetchSessions_roster_selection_witness :
    (fetchSessions [] none none none (some [⟨7, "a", "d1"⟩, ⟨3, "b", "d2"⟩])).1 =
      [⟨7, "a", "d1"⟩, ⟨3, "b", "d2"⟩]
    ∧ (((none : Option Nat).isNone && !([⟨7, "a", "d1"⟩, ⟨3, "b", "d2"⟩] : List Session).isEmpty &&
          !(jsTruthy none || jsTruthy none)) = true →
        (fetchSessions [] none none none (some [⟨7, "a", "d1"⟩, ⟨3, "b", "d2"⟩])).2 =
          (([⟨7, "a", "d1"⟩, ⟨3, "b", "d2"⟩] : List Session).head?).map Session.id)
    ∧ (((none : Option Nat).isNone && !([⟨7, "a", "d1"⟩, ⟨3, "b", "d2"⟩] : List Session).isEmpty &&
          !(jsTruthy none || jsTruthy none)) = false →
        (fetchSessions [] none none none (some [⟨7, "a", "d1"⟩, ⟨3, "b", "d2"⟩])).2 = none) :=
  fetchSessions_roster_selection [] [⟨7, "a", "d1"⟩, ⟨3, "b", "d2"⟩] none none none

/-- C9: a confirmed, successful delete removes the session from the roster
(no entry with that id survives); if the deleted session was active, the
new first remaining entry becomes active — `none` when the roster emptied —
and otherwise the active selection is untouched. -/
theorem deleteSession_roster (st : PageState) (sid : Nat) :
    (deleteSession st sid true true).sessions = st.sessions.filter (fun s => s.id != sid)
    ∧ ((deleteSession st sid true true).sessions.all (fun s => s.id != sid)) = true
    ∧ (st.activeSessionId = some sid →
        (deleteSession st sid true true).activeSessionId =
          ((deleteSession st sid true true).sessions.head?).map Session.id)
    ∧ (st.activeSessionId ≠ some sid →
        (deleteSession st sid true true).activeSessionId = st.activeSessionId) := by
  have hall : (st.sessions.filter (fun s => s.id != sid)).all (fun s => s.id != sid) = true := by
    simp only [List.all_eq_true, List.mem_filter]
    exact fun s hs => hs.2
  by_cases ha : st.activeSessionId = some sid
  · cases hh : (st.sessions.filter (fun s => s.id != sid)).head? with
    | none =>
      refine ⟨?_, ?_, fun _ => ?_, fun hne => absurd ha hne⟩ <;>
        simp [deleteSession, ha, hh, hall]
    | some s0 =>
      refine ⟨?_, ?_, fun _ => ?_, fun hne => absurd ha hne⟩ <;>
        simp [deleteSession, ha, hh, hall]
  · refine ⟨?_, ?_, fun heq => absurd heq ha, fun _ => ?_⟩ <;>
      simp [deleteSession, ha, hall]

/-- C9 witness: deleting the active session 1 out of `[1, 2]` leaves
`[2]` active. -/
theorem deleteSession_roster_witness :
    (deleteSession ⟨[⟨1, "a", "d1"⟩, ⟨2, "b", "d2"⟩], some 1, 0⟩ 1 true true).sessions =
      ([⟨1, "a", "d1"⟩, ⟨2, "b", "d2"⟩] : List Session).filter (fun s => s.id != 1)
    ∧ ((deleteSession ⟨[⟨1, "a", "d1"⟩, ⟨2, "b", "d2"⟩], some 1, 0⟩ 1 true true).sessions.all
        (fun s => s.id != 1)) = true
    ∧ (PageState.activeSessionId ⟨[⟨1, "a", "d1"⟩, ⟨2, "b", "d2"⟩], some 1, 0⟩ = some 1 →
        (deleteSession ⟨[⟨1, "a", "d1"⟩, ⟨2, "b", "d2"⟩], some 1, 0⟩ 1 true true).activeSessionId =
          ((deleteSession ⟨[⟨1, "a", "d1"⟩, ⟨2, "b", "d2"⟩], some 1, 0⟩ 1 true true).sessions.head?).map
            Session.id)
    ∧ (PageState.activeSessionId ⟨[⟨1, "a", "d1"⟩, ⟨2, "b", "d2"⟩], some 1, 0⟩ ≠ some 1 →
        (deleteSession ⟨[⟨1, "a", "d1"⟩, ⟨2, "b", "d2"⟩], some 1, 0⟩ 1 true true).activeSessionId =
          some 1) :=
  deleteSession_roster ⟨[⟨1, "a", "d1"⟩, ⟨2, "b", "d2"⟩], some 1, 0⟩ 1

end AskN7
